import Mathlib

/-!
Verification of the printer communication client (`src/utils/printerService.ts`).

Shallow embedding of the printer client of the clear-attendance repository:
the `PrinterSocket` transport/correlator/dispatcher layer and the
`PrinterService` session and print-job orchestrator.  JavaScript objects
with possibly-absent fields are embedded as structures of `Option`s, and the
JS comparison idioms (`?.`, `!==`, truthiness, `undefined >= 1` being false)
are translated explicitly.  Event-driven code becomes explicit step
functions on state records; promise settlement (first resolve/reject wins)
is tracked by an `Option` field that later settle calls cannot overwrite.
-/

namespace PrinterClient

/-- The `resultAck` object carried by daemon messages.  Every field may be
absent, mirroring the JS optional accesses `resultAck?.errorCode` etc. -/
structure ResultAck where
  errorCode : Option Int := none
  info : Option String := none
  printCopies : Option Int := none
  printPages : Option Int := none
deriving Repr, DecidableEq

/-- An inbound or synthetic daemon message: `{ apiName, resultAck, Error }`.
`errMsg` embeds the `Error` field of the synthetic responses. -/
structure Msg where
  apiName : Option String := none
  resultAck : Option ResultAck := none
  errMsg : Option String := none
deriving Repr, DecidableEq

/-- `msg.resultAck?.errorCode`, the error code of a message if present. -/
def ackCode (m : Msg) : Option Int :=
  m.resultAck.bind (fun ra => ra.errorCode)

/-- `msg.resultAck?.info`. -/
def ackInfo (m : Msg) : Option String :=
  m.resultAck.bind (fun ra => ra.info)

/-- JS `msg.resultAck?.errorCode !== 0`: true when `resultAck` is absent,
when `errorCode` is absent (`undefined !== 0`), or when it is nonzero. -/
def errorCodeNeZero (m : Msg) : Bool :=
  match ackCode m with
  | some c => c != 0
  | none => true

/-- JS `resultAck?.printCopies >= 1 && resultAck?.printPages >= 1`:
a comparison against `undefined` is false, so both fields must be present
and at least 1 (printParticipantBadge completion check, line 475). -/
def copiesPagesOk (m : Msg) : Bool :=
  match m.resultAck with
  | none => false
  | some ra =>
    (match ra.printCopies with | some c => decide (1 ≤ c) | none => false)
      && (match ra.printPages with | some p => decide (1 ≤ p) | none => false)

/-- JS truthiness of a possibly-absent string (`msg.apiName && ...`,
`!!this.selectedPrinter`): present and nonempty. -/
def truthy (o : Option String) : Bool :=
  match o with
  | some s => s != ""
  | none => false

/-- One entry of `promisePool`: the pending request for an operation name.
`settled` records the value the entry's promise has already settled with,
if any — a JS promise settles at most once, so later resolve calls on a
settled entry are no-ops. -/
structure PoolEntry where
  timestamp : Nat
  settled : Option Msg := none
deriving Repr, DecidableEq

/-- `promisePool` lookup (`this.promisePool[apiName]`). -/
def poolGet (pool : List (String × PoolEntry)) (k : String) : Option PoolEntry :=
  (pool.find? (fun kv => kv.1 == k)).map (fun kv => kv.2)

/-- `promisePool` assignment (`this.promisePool[apiName] = ...`), replacing
any previous entry for the same operation name. -/
def poolSet (pool : List (String × PoolEntry)) (k : String) (v : PoolEntry) :
    List (String × PoolEntry) :=
  (k, v) :: pool.filter (fun kv => kv.1 != k)

/-- `delete this.promisePool[apiName]`. -/
def poolDel (pool : List (String × PoolEntry)) (k : String) :
    List (String × PoolEntry) :=
  pool.filter (fun kv => kv.1 != k)

/-- State of a `PrinterSocket`.  `ws` is the underlying WebSocket:
`none` embeds `undefined`, `some r` a socket whose `readyState` is `r`
(0 CONNECTING, 1 OPEN, 2 CLOSING, 3 CLOSED).  `printListeners` is the
listener set, identified by ids, in registration order. -/
structure SocketState where
  ws : Option Nat := none
  pool : List (String × PoolEntry) := []
  printListeners : List Nat := []
  customClose : Bool := false
  isProcessingCommitJob : Bool := false
  hasOpenChangeCallback : Bool := false
deriving Repr, DecidableEq

/-- The synthetic response produced by the timeout callback inside `send`
(lines 192–196): fixed error code 22, `Error: "Request timeout"`. -/
def timeoutMsg (a : String) : Msg :=
  { apiName := some a
    resultAck := some { errorCode := some 22 }
    errMsg := some "Request timeout" }

/-- The synthetic response produced by `send` when the socket is not open
(lines 214–218): fixed error code 22, `Error: "WebSocket not connected"`. -/
def notConnectedMsg (a : String) : Msg :=
  { apiName := some a
    resultAck := some { errorCode := some 22 }
    errMsg := some "WebSocket not connected" }

/-- Settle a pool entry's promise with a value: a no-op when already
settled.  Returns the updated entry and the settlement events (the actual
resolutions, at most one). -/
def settleEntry (e : PoolEntry) (a : String) (m : Msg) :
    PoolEntry × List (String × Msg) :=
  match e.settled with
  | some _ => (e, [])
  | none => ({ e with settled := some m }, [(a, m)])

/-- `PrinterSocket.send` (lines 184–221): registers a pool entry keyed by
the operation name with the captured timestamp; writes to the wire when the
socket is OPEN, otherwise immediately resolves the entry with the
not-connected synthetic response (note: the entry is left in the pool and
its timer keeps running, exactly as in the source). -/
def send (s : SocketState) (a : String) (ts : Nat) :
    SocketState × List (String × Msg) :=
  if s.ws == some 1 then
    ({ s with pool := poolSet s.pool a { timestamp := ts } }, [])
  else
    ({ s with pool := poolSet s.pool a { timestamp := ts, settled := some (notConnectedMsg a) } },
      [(a, notConnectedMsg a)])

/-- The unconditional first statement of the timeout callback (lines
187–189): a firing `commitJob` timeout sets `isProcessingCommitJob`. -/
def timeoutFlag (s : SocketState) (a : String) : SocketState :=
  if a == "commitJob" then { s with isProcessingCommitJob := true } else s

/-- The timeout callback registered by `send` (lines 186–200), firing for
operation name `a` with the timestamp `ts` captured at that send: for
`commitJob` it first sets `isProcessingCommitJob`; then it resolves and
deletes the pending entry only when the entry exists and its recorded
timestamp equals `ts`. -/
def timeoutFire (s : SocketState) (a : String) (ts : Nat) :
    SocketState × List (String × Msg) :=
  let s1 := timeoutFlag s a
  match poolGet s1.pool a with
  | none => (s1, [])
  | some req =>
    if req.timestamp == ts then
      let (_, ev) := settleEntry req a (timeoutMsg a)
      ({ s1 with pool := poolDel s1.pool a }, ev)
    else (s1, [])

/-- `PrinterSocket.handleApiResponse` (lines 137–154): resolves the pending
entry matching the message's operation name, if any; nonzero error codes
clear `isProcessingCommitJob`.  The `commitJob` branch is kept faithfully
even though `messageRouter` never routes `commitJob` messages here. -/
def handleApiResponse (s : SocketState) (a : String) (m : Msg) :
    SocketState × List (String × Msg) :=
  match poolGet s.pool a with
  | none => (s, [])
  | some req =>
    if a == "commitJob" then
      if ackInfo m == some "commitJob ok!" then
        let (_, ev) := settleEntry req a m
        ({ s with pool := poolDel s.pool a, isProcessingCommitJob := true }, ev)
      else (s, [])
    else
      let s1 := if errorCodeNeZero m then { s with isProcessingCommitJob := false } else s
      let (_, ev) := settleEntry req a m
      ({ s1 with pool := poolDel s1.pool a }, ev)

/-- `PrinterSocket.handleEventPush` (lines 156–164): delivers the message to
every registered print listener; a nonzero (or absent) error code clears
`isProcessingCommitJob`. -/
def handleEventPush (s : SocketState) (m : Msg) : SocketState × List Nat :=
  let s1 := if errorCodeNeZero m then { s with isProcessingCommitJob := false } else s
  (s1, s.printListeners)

/-- Result of routing one inbound message: the new socket state, the pool
entries resolved (operation name and value), and the listeners the message
was pushed to. -/
structure RouteResult where
  state : SocketState
  resolved : List (String × Msg) := []
  pushedTo : List Nat := []
deriving Repr, DecidableEq

/-- `PrinterSocket.messageRouter` (lines 124–135): a message whose
`apiName` is `"commitJob"` is an auto-report and goes to the push path;
a message with a truthy `apiName` other than the reserved names
`"getPrinterHighLevelInfo"` and `"printStatus"` goes to the response path;
everything else is dropped. -/
def messageRouter (s : SocketState) (m : Msg) : RouteResult :=
  let isAutoReport := m.apiName == some "commitJob"
  if truthy m.apiName && m.apiName != some "getPrinterHighLevelInfo"
      && m.apiName != some "printStatus" && !isAutoReport then
    { state := (handleApiResponse s (m.apiName.getD "") m).1,
      resolved := (handleApiResponse s (m.apiName.getD "") m).2,
      pushedTo := [] }
  else if isAutoReport then
    { state := (handleEventPush s m).1, resolved := [],
      pushedTo := (handleEventPush s m).2 }
  else
    { state := s, resolved := [], pushedTo := [] }

/-- Result of one call to `PrinterSocket.open`: the new state, whether a new
underlying WebSocket was constructed, and whether a resolver for the
returned promise was installed (the promise executor attaches the `onopen`
handler — the only code that ever resolves this promise — exclusively in
the `_websocket === undefined` branch, lines 84–117). -/
structure OpenResult where
  state : SocketState
  socketCreated : Bool
  resolverInstalled : Bool
deriving Repr, DecidableEq

/-- `PrinterSocket.open` (lines 78–119): records the state-change callback
when supplied; when no underlying socket exists, constructs one (readyState
CONNECTING) and wires its handlers, among them the one that resolves the
returned promise; when a socket already exists, the promise executor does
nothing at all. -/
def openStep (s : SocketState) (hasCallback : Bool) : OpenResult :=
  let s0 := if hasCallback then { s with hasOpenChangeCallback := true } else s
  match s0.ws with
  | none => { state := { s0 with ws := some 0 }, socketCreated := true, resolverInstalled := true }
  | some _ => { state := s0, socketCreated := false, resolverInstalled := false }

/-- `PrinterSocket.close` (lines 173–182): records the intentional-close
flag; only when the underlying socket exists and is OPEN does it clear all
listeners and call `close()` on it (readyState becomes CLOSING). -/
def close (s : SocketState) (closing : Bool) : SocketState :=
  let s1 := { s with customClose := closing }
  if s1.ws == some 1 then
    { s1 with printListeners := [], ws := some 2 }
  else s1

/-- Participant display data passed to `printParticipantBadge`. -/
structure Participant where
  name : String
  id : String
  department : String
deriving Repr, DecidableEq

/-- State of a `PrinterService` (lines 260–282): the wrapped socket and the
three session readiness fields, plus the selected port. -/
structure ServiceState where
  socket : SocketState := {}
  isConnected : Bool := false
  isSdkInitialized : Bool := false
  selectedPrinter : Option String := none
  selectedPort : Option Int := none
deriving Repr, DecidableEq

/-- `PrinterService.isReady` (lines 617–619):
`isConnected && isSdkInitialized && !!selectedPrinter`. -/
def isReady (svc : ServiceState) : Bool :=
  svc.isConnected && svc.isSdkInitialized && truthy svc.selectedPrinter

/-- `PrinterService.disconnect` (lines 641–648): `socket.close(true)` then
all session fields reset. -/
def disconnect (svc : ServiceState) : ServiceState :=
  { svc with
    socket := close svc.socket true
    isConnected := false
    isSdkInitialized := false
    selectedPrinter := none
    selectedPort := none }

/-- A request the orchestrator sends to the daemon, with the parameters the
source passes.  `fontSize` is rational because the second text element uses
`2.5`. -/
inductive JobRequest where
  | startJob (printDensity printLabelType printMode count : Int)
  | initDrawingBoard (width height rotate : Int) (path : String)
      (verticalShift horizontalShift : Int)
  | drawLableText (x y height width : Int) (value : String) (fontSize : Rat)
      (rotate textAlignHorizonral textAlignVertical lineMode fontStyle : Int)
  | commitJob
  | endJob
deriving Repr, DecidableEq

/-- The `InitDrawingBoard` call of `executePrintJob` (lines 540–547):
a 54mm x 25mm label. -/
def initBoardReq : JobRequest :=
  JobRequest.initDrawingBoard 54 25 0 "" 0 0

/-- The three `textElements` of `executePrintJob` (lines 554–594), in source
order: name, `ID: <id>`, department. -/
def textElements (p : Participant) : List JobRequest :=
  [JobRequest.drawLableText 2 2 6 50 p.name 4 0 1 1 6 1,
   JobRequest.drawLableText 2 9 4 50 ("ID: " ++ p.id) (5 / 2) 0 1 1 6 0,
   JobRequest.drawLableText 2 15 4 50 p.department 2 0 1 1 6 0]

/-- The full fixed call sequence of one print job (endJob is issued by the
push listener, not by `executePrintJob`). -/
def fullJobSeq (d lt pm : Int) (p : Participant) : List JobRequest :=
  JobRequest.startJob d lt pm 1 :: initBoardReq :: (textElements p ++ [JobRequest.commitJob])

/-- Success test used by `initDrawingBoard` and `drawLabelText` (lines
401–428): zero error code; an absent `resultAck`/`errorCode` raises inside
the helper's own try/catch and yields `false`. -/
def isZeroAck (m : Msg) : Bool :=
  match m.resultAck with
  | some ra => ra.errorCode == some 0
  | none => false

/-- The draw loop of `executePrintJob` (lines 596–601): each element's call
must succeed before the next is issued; the first failure aborts the rest.
`oracle i` is the response the i-th awaited send resolves with. -/
def runDraws (elems : List JobRequest) (oracle : Nat → Msg) (i : Nat) :
    List JobRequest × Bool :=
  match elems with
  | [] => ([], true)
  | e :: rest =>
    if isZeroAck (oracle i) then
      (e :: (runDraws rest oracle (i + 1)).1, (runDraws rest oracle (i + 1)).2)
    else ([e], false)

/-- `PrinterService.executePrintJob` (lines 517–612).  `oracle i` is the
response resolving the i-th awaited `send` (index 0 `startJob`, 1
`InitDrawingBoard`, 2–4 the draws, 5 `commitJob`).  Returns the trace of
requests issued and the outcome.  `startJob` accesses
`resultAck.errorCode` without optional chaining, so an absent `resultAck`
raises a TypeError; a nonzero or absent code throws the fixed message; the
drawing-board and draw steps throw their fixed messages on failure; the
`commitJob` response is awaited but never inspected. -/
def executePrintJob (d lt pm : Int) (p : Participant) (oracle : Nat → Msg) :
    List JobRequest × Except String Unit :=
  let start := JobRequest.startJob d lt pm 1
  match (oracle 0).resultAck with
  | none => ([start], Except.error "TypeError")
  | some ra =>
    if ra.errorCode != some 0 then
      ([start], Except.error "Failed to start print job")
    else if !isZeroAck (oracle 1) then
      ([start, initBoardReq], Except.error "Failed to initialize drawing board")
    else
      let dr := runDraws (textElements p) oracle 2
      if dr.2 then
        (start :: initBoardReq :: (dr.1 ++ [JobRequest.commitJob]), Except.ok ())
      else
        (start :: initBoardReq :: dr.1, Except.error "Failed to draw text element")

/-- How the `printPromise` of `printParticipantBadge` settles:
`resolve(true)`, `resolve(false)`, or `reject(new Error(msg))`. -/
inductive JobOutcome where
  | success
  | failure
  | rejected (msg : String)
deriving Repr, DecidableEq

/-- State of one orchestrated job's promise machinery (lines 444–502):
whether the temporary push listener is still registered, the `isCompleted`
flag, whether the 30-second timer is still armed (cleanup clears it), and
the value the promise has settled with, if any. -/
structure JobState where
  listenerRegistered : Bool
  isCompleted : Bool
  timerActive : Bool
  settled : Option JobOutcome
deriving Repr, DecidableEq

/-- Job state right after the listener and the 30-second timer are
registered, before any job command is issued. -/
def jobInit : JobState :=
  { listenerRegistered := true, isCompleted := false, timerActive := true, settled := none }

/-- Settle the job promise: a no-op when already settled (a JS promise
settles at most once). -/
def settleJob (js : JobState) (o : JobOutcome) : JobState :=
  match js.settled with
  | some _ => js
  | none => { js with settled := some o }

/-- The error message the listener rejects with:
`resultAck?.info || 'Print failed'` (line 496) — the info string when
present and truthy, the fixed fallback otherwise. -/
def pushErrMsg (m : Msg) : String :=
  match ackInfo m with
  | some s => if s == "" then "Print failed" else s
  | none => "Print failed"

/-- The completion branch bookkeeping of the push listener: set
`isCompleted`, remove the listener and clear the 30-second timer
(`cleanup`, lines 458–464). -/
def cleanupDone (js : JobState) : JobState :=
  { js with isCompleted := true, listenerRegistered := false, timerActive := false }

/-- The temporary push listener of `printParticipantBadge` (lines 466–498)
processing one push message.  `sockOpen` is whether `getStatus()` is OPEN
at that moment; `endJobOk` is whether the awaited `endJob` send resolves
without throwing (in the source it always resolves, so `true` is the
realizable case).  Completion branch first: when the payload reports
`printCopies >= 1 && printPages >= 1` (the error code is NOT consulted),
send `endJob` if the socket is open, set `isCompleted`, run `cleanup`
(listener removed, timer cleared) and resolve `true` (resolve `false` when
`endJob` threw).  Then, falling through, a payload with nonzero or absent
error code runs `cleanup` and rejects.  Returns the new job state and the
requests sent (`endJob` at most once). -/
def listenerOnPush (sockOpen endJobOk : Bool) (js : JobState) (m : Msg) :
    JobState × List JobRequest :=
  let (js1, reqs) :=
    if copiesPagesOk m then
      if sockOpen then
        if endJobOk then
          (settleJob (cleanupDone js) JobOutcome.success, [JobRequest.endJob])
        else
          (settleJob (cleanupDone js) JobOutcome.failure, [JobRequest.endJob])
      else
        (settleJob (cleanupDone js) JobOutcome.success, [])
    else (js, [])
  if errorCodeNeZero m then
    (settleJob { js1 with listenerRegistered := false, timerActive := false }
      (JobOutcome.rejected (pushErrMsg m)), reqs)
  else (js1, reqs)

/-- The rejection path `this.executePrintJob(participantData).catch(reject)`
(line 501): the promise is rejected, but neither the listener nor the
30-second timer is cleaned up. -/
def execRejected (js : JobState) (e : String) : JobState :=
  settleJob js (JobOutcome.rejected e)

/-- The 30-second overall timer of `printParticipantBadge` (lines 450–456):
when it fires with `isCompleted` still false, it runs `cleanup` (removing
the listener) and resolves `false`; when `isCompleted` is set it does
nothing.  Does nothing when the timer was already cleared. -/
def jobTimeoutFire (js : JobState) : JobState :=
  if !js.timerActive then js
  else
    let js1 := { js with timerActive := false }
    if js1.isCompleted then js1
    else settleJob { js1 with listenerRegistered := false } JobOutcome.failure

/-- The fixed not-ready error message (line 439). -/
def notReadyMsg : String :=
  "Printer not ready. Please connect, initialize SDK, and select a printer first."

/-- Observable result of one `printParticipantBadge` invocation: the daemon
requests issued, the promise's settlement, and whether the temporary
listener is still registered afterwards. -/
structure BadgeResult where
  trace : List JobRequest
  outcome : Option JobOutcome
  listenerRegistered : Bool
deriving Repr, DecidableEq

/-- `PrinterService.printParticipantBadge` (lines 433–512) under the
sequential schedule in which `executePrintJob` runs to completion and then
the pushes in `pushes` reach the listener (delivered only while it is
registered), after which the 30-second timer fires iff `fireTimer`.
When the service is not ready the call throws the fixed not-ready error
before registering anything and issues no daemon call. -/
def printParticipantBadge (svc : ServiceState) (d lt pm : Int) (p : Participant)
    (oracle : Nat → Msg) (pushes : List Msg) (sockOpen fireTimer : Bool) :
    BadgeResult :=
  if !isReady svc then
    { trace := [], outcome := some (JobOutcome.rejected notReadyMsg),
      listenerRegistered := false }
  else
    let er := executePrintJob d lt pm p oracle
    let js1 :=
      match er.2 with
      | Except.ok _ => jobInit
      | Except.error e => execRejected jobInit e
    let step := fun (acc : JobState × List JobRequest) (m : Msg) =>
      if acc.1.listenerRegistered then
        let r := listenerOnPush sockOpen true acc.1 m
        (r.1, acc.2 ++ r.2)
      else acc
    let fin := pushes.foldl step (js1, [])
    let js3 := if fireTimer then jobTimeoutFire fin.1 else fin.1
    { trace := er.1 ++ fin.2, outcome := js3.settled,
      listenerRegistered := js3.listenerRegistered }

/-! ## Shared concrete inputs -/

/-- The participant of the spec's full-print example. -/
def jane : Participant :=
  { name := "Jane Doe", id := "EMP001", department := "IT" }

/-- A plain success response: zero error code. -/
def okMsg : Msg :=
  { apiName := some "x", resultAck := some { errorCode := some 0 } }

/-- A failing `startJob` response: error code 1. -/
def startFailMsg : Msg :=
  { apiName := some "startJob", resultAck := some { errorCode := some 1 } }

/-- The completion push of the spec's full-print example:
`{errorCode:0, printCopies:1, printPages:1}`. -/
def goodPush : Msg :=
  { apiName := some "commitJob"
    resultAck := some { errorCode := some 0, printCopies := some 1, printPages := some 1 } }

/-- A successful `initSdk` response from the daemon. -/
def okSdkResponse : Msg :=
  { apiName := some "initSdk", resultAck := some { errorCode := some 0 } }

/-! ## Helper lemmas -/

/-- Deleting an operation name from the pool makes its lookup fail. -/
theorem poolGet_poolDel_self (pool : List (String × PoolEntry)) (a : String) :
    poolGet (poolDel pool a) a = none := by
  have h : (poolDel pool a).find? (fun kv => kv.1 == a) = none := by
    rw [List.find?_eq_none]
    intro x hx
    simp only [poolDel, List.mem_filter, bne_iff_ne, ne_eq] at hx
    simp [hx.2]
  simp [poolGet, h]

/-- `handleEventPush` never touches the pending-request pool. -/
theorem handleEventPush_pool (s : SocketState) (m : Msg) :
    (handleEventPush s m).1.pool = s.pool := by
  unfold handleEventPush
  split <;> rfl

/-- Every resolution emitted by `handleApiResponse` is keyed by the
operation name it was called with. -/
theorem handleApiResponse_resolved_key (s : SocketState) (a : String) (m : Msg) :
    ∀ q ∈ (handleApiResponse s a m).2, q.1 = a := by
  unfold handleApiResponse
  cases hp : poolGet s.pool a with
  | none => simp
  | some req =>
    simp only []
    unfold settleEntry
    cases hs : req.settled <;> split <;> split <;> simp_all

/-- When the pool holds no entry for the message's operation name, routing
the message resolves nothing and leaves the pool unchanged. -/
theorem messageRouter_no_entry (s : SocketState) (m : Msg) (a : String)
    (hm : m.apiName = some a) (h : poolGet s.pool a = none) :
    (messageRouter s m).resolved = [] ∧ (messageRouter s m).state.pool = s.pool := by
  have hr : handleApiResponse s a m = (s, []) := by
    unfold handleApiResponse
    rw [h]
  unfold messageRouter
  dsimp only
  rw [hm]
  split
  · simp [hr]
  · split
    · exact ⟨rfl, handleEventPush_pool s m⟩
    · exact ⟨rfl, rfl⟩

/-! ## C8 — synthetic timeout vs. not-connected error codes -/

/-- C8 counterexample: the claim says the fixed timeout error code is
distinct from the fixed not-connected error code, but both synthetic
responses produced by `send` carry the same code 22 — at operation name
`"initSdk"` the two codes are equal, refuting distinctness. -/
theorem C8_counterexample :
    ackCode (timeoutMsg "initSdk") = ackCode (notConnectedMsg "initSdk")
    ∧ ackCode (timeoutMsg "initSdk") = some 22 := by
  exact ⟨rfl, rfl⟩

/-- C8 (amended): the synthetic timeout response and the synthetic
not-connected response both carry the same fixed error code 22; they are
distinguished only by their `Error` message strings, `"Request timeout"`
versus `"WebSocket not connected"`. -/
theorem C8_same_code_distinct_message (a : String) :
    ackCode (timeoutMsg a) = some 22
    ∧ ackCode (notConnectedMsg a) = some 22
    ∧ (timeoutMsg a).errMsg = some "Request timeout"
    ∧ (notConnectedMsg a).errMsg = some "WebSocket not connected"
    ∧ (timeoutMsg a).errMsg ≠ (notConnectedMsg a).errMsg := by
  refine ⟨rfl, rfl, rfl, rfl, ?_⟩
  simp [timeoutMsg, notConnectedMsg]

/-! ## C4 — idempotency of `open` -/

/-- A socket whose underlying WebSocket is already OPEN. -/
def openSocketC4 : SocketState := { ws := some 1 }

/-- C4 counterexample: on a second `open` call (underlying socket already
OPEN) no second socket is created — that half of the claim holds — but no
resolver for the returned promise is installed either, so the call cannot
"resolve immediately using the existing connection's state": its promise
never settles. -/
theorem C4_counterexample :
    (openStep openSocketC4 false).socketCreated = false
    ∧ ¬ (openStep openSocketC4 false).resolverInstalled = true := by
  exact ⟨rfl, by decide⟩

/-- C4 (amended): calling `open` while an underlying socket exists creates
no second socket and leaves the connection state, the pending pool and the
listener set untouched, but installs no resolver, so the returned promise
never resolves. -/
theorem C4_second_open_inert (s : SocketState) (hc : Bool)
    (h : s.ws.isSome = true) :
    (openStep s hc).socketCreated = false
    ∧ (openStep s hc).resolverInstalled = false
    ∧ (openStep s hc).state.ws = s.ws
    ∧ (openStep s hc).state.pool = s.pool
    ∧ (openStep s hc).state.printListeners = s.printListeners := by
  obtain ⟨r, hr⟩ := Option.isSome_iff_exists.mp h
  cases hc <;> simp [openStep, hr]

/-- Witness for C4 (amended) at a concrete OPEN socket. -/
theorem C4_witness :
    openSocketC4.ws.isSome = true
    ∧ (openStep openSocketC4 true).socketCreated = false
    ∧ (openStep openSocketC4 true).resolverInstalled = false :=
  ⟨by decide, (C4_second_open_inert openSocketC4 true (by decide)).1,
    (C4_second_open_inert openSocketC4 true (by decide)).2.1⟩

/-! ## C6 — disconnect resets the session -/

/-- A service whose underlying socket is CLOSING (readyState 2) while one
print listener is still registered — e.g. the daemon dropped the
connection during a job and its close event has not fired yet. -/
def closingStateC6 : ServiceState :=
  { socket := { ws := some 2, printListeners := [7] }
    isConnected := true
    isSdkInitialized := true
    selectedPrinter := some "NIIMBOT"
    selectedPort := some 9100 }

/-- C6 counterexample: `disconnect` from a state whose socket is not OPEN
leaves the push-listener set non-empty, because `PrinterSocket.close` only
clears listeners when `readyState === OPEN` — refuting "the push-listener
set is empty" for arbitrary starting states. -/
theorem C6_counterexample :
    (disconnect closingStateC6).socket.printListeners ≠ [] := by
  decide

/-- C6 (amended): after `disconnect()` the three readiness fields are
always cleared, and the push-listener set is empty provided the underlying
socket was OPEN at the time of the call; from a non-OPEN socket state the
listener set is left untouched by `disconnect` itself. -/
theorem C6_disconnect_resets (svc : ServiceState) :
    (disconnect svc).isConnected = false
    ∧ (disconnect svc).isSdkInitialized = false
    ∧ (disconnect svc).selectedPrinter = none
    ∧ (svc.socket.ws = some 1 → (disconnect svc).socket.printListeners = []) := by
  refine ⟨rfl, rfl, rfl, fun h => ?_⟩
  simp [disconnect, close, h]

/-- A ready service whose socket is OPEN. -/
def openStateC6 : ServiceState :=
  { socket := { ws := some 1, printListeners := [7] }
    isConnected := true
    isSdkInitialized := true
    selectedPrinter := some "NIIMBOT"
    selectedPort := some 9100 }

/-- Witness for C6 (amended) at a concrete OPEN-socket service. -/
theorem C6_witness :
    openStateC6.socket.ws = some 1
    ∧ (disconnect openStateC6).isConnected = false
    ∧ (disconnect openStateC6).socket.printListeners = [] :=
  ⟨rfl, (C6_disconnect_resets openStateC6).1,
    (C6_disconnect_resets openStateC6).2.2.2 rfl⟩

/-! ## C5 — readiness gate -/

/-- C5: `printParticipantBadge` invoked while `isReady` is false (the
conjunction of connected, SDK-initialized and a truthy selected printer)
throws the fixed not-ready error immediately and issues zero daemon
calls. -/
theorem C5_readiness_gate (svc : ServiceState) (d lt pm : Int)
    (p : Participant) (oracle : Nat → Msg) (pushes : List Msg)
    (so ft : Bool) (h : isReady svc = false) :
    printParticipantBadge svc d lt pm p oracle pushes so ft =
      { trace := [], outcome := some (JobOutcome.rejected notReadyMsg),
        listenerRegistered := false } := by
  unfold printParticipantBadge
  simp [h]

/-- Witness for C5: a freshly constructed service is not ready, and a
print attempt on it is rejected with the not-ready error and an empty
daemon trace. -/
theorem C5_witness :
    isReady {} = false
    ∧ printParticipantBadge {} 3 1 1 jane (fun _ => okMsg) [goodPush] true true =
        { trace := [], outcome := some (JobOutcome.rejected notReadyMsg),
          listenerRegistered := false } :=
  ⟨rfl, C5_readiness_gate {} 3 1 1 jane (fun _ => okMsg) [goodPush] true true rfl⟩

/-! ## C1 — completion signal of a badge print -/

/-- A push payload reporting one copy and one page printed together with a
NONZERO error code. -/
def errorCompletionPush : Msg :=
  { apiName := some "commitJob"
    resultAck := some { errorCode := some 5, printCopies := some 1, printPages := some 1 } }

/-- C1 counterexample: the listener's completion check (line 475) tests
only `printCopies >= 1 && printPages >= 1` and never the error code, so a
push with error code 5 but copies/pages 1 still resolves the job as
success (with `endJob` sent when the socket is open) — refuting "success
only together with a zero error code".  Moreover, when the socket is not
open at that moment, the job still resolves success with NO `endJob`
sent — refuting the unconditional "endJob is sent exactly once". -/
theorem C1_counterexample :
    ackCode errorCompletionPush = some 5
    ∧ (listenerOnPush true true jobInit errorCompletionPush).1.settled
        = some JobOutcome.success
    ∧ (listenerOnPush true true jobInit errorCompletionPush).2 = [JobRequest.endJob]
    ∧ (listenerOnPush false true jobInit errorCompletionPush).1.settled
        = some JobOutcome.success
    ∧ (listenerOnPush false true jobInit errorCompletionPush).2 = [] := by
  decide

/-- C1 (amended): the job promise settles success exactly when the
observed push payload reports copies-printed ≥ 1 and pages-printed ≥ 1,
irrespective of the payload's error code; on that completion signal
`endJob` is sent exactly once before the job resolves when the socket is
OPEN at that moment, and not at all otherwise. -/
theorem C1_success_iff_copies_and_pages (m : Msg) (so : Bool) :
    ((listenerOnPush so true jobInit m).1.settled = some JobOutcome.success
      ↔ copiesPagesOk m = true)
    ∧ (copiesPagesOk m = true →
        (listenerOnPush so true jobInit m).2
          = if so then [JobRequest.endJob] else []) := by
  by_cases hc : copiesPagesOk m
  all_goals by_cases he : errorCodeNeZero m
  all_goals cases so
  all_goals simp [listenerOnPush, settleJob, cleanupDone, jobInit, hc, he]

/-- Witness for C1 (amended) at the spec's example completion push
`{errorCode:0, printCopies:1, printPages:1}` with the socket open. -/
theorem C1_witness :
    copiesPagesOk goodPush = true
    ∧ (listenerOnPush true true jobInit goodPush).1.settled = some JobOutcome.success
    ∧ (listenerOnPush true true jobInit goodPush).2 = [JobRequest.endJob] :=
  ⟨by decide,
    (C1_success_iff_copies_and_pages goodPush true).1.mpr (by decide),
    by simpa using (C1_success_iff_copies_and_pages goodPush true).2 (by decide)⟩

/-! ## C7 — temporary listener cleanup -/

/-- C7 counterexample: when `executePrintJob` rejects (here with the fixed
start-failure message), `.catch(reject)` settles the job promise WITHOUT
running `cleanup`, so at the moment the job resolves the temporary push
listener is still registered — refuting "after any print job resolves ...
the listener has been removed" for the rejection path. -/
theorem C7_counterexample :
    (execRejected jobInit "Failed to start print job").settled
        = some (JobOutcome.rejected "Failed to start print job")
    ∧ (execRejected jobInit "Failed to start print job").listenerRegistered = true := by
  decide

/-- C7 (amended): a job settled through the push listener (success,
endJob failure, or error-push rejection) has its listener removed at
settlement, and so does a job settled by the 30-second timer; but a job
rejected because a job-step call failed keeps its listener registered
until the 30-second timer fires, which removes the listener without
changing the already-settled outcome. -/
theorem C7_listener_cleanup :
    (∀ (m : Msg) (so ok : Bool),
      (listenerOnPush so ok jobInit m).1.settled.isSome = true →
        (listenerOnPush so ok jobInit m).1.listenerRegistered = false)
    ∧ ((jobTimeoutFire jobInit).settled = some JobOutcome.failure
        ∧ (jobTimeoutFire jobInit).listenerRegistered = false)
    ∧ (∀ e : String,
        (jobTimeoutFire (execRejected jobInit e)).settled
            = some (JobOutcome.rejected e)
        ∧ (jobTimeoutFire (execRejected jobInit e)).listenerRegistered = false) := by
  refine ⟨?_, ⟨by decide, by decide⟩, ?_⟩
  · intro m so ok
    by_cases hc : copiesPagesOk m
    all_goals by_cases he : errorCodeNeZero m
    all_goals cases so
    all_goals cases ok
    all_goals simp [listenerOnPush, settleJob, cleanupDone, jobInit, hc, he]
  · intro e
    constructor
    all_goals simp [jobTimeoutFire, execRejected, settleJob, jobInit]

/-- Witness for C7 (amended) at a concrete error push. -/
theorem C7_witness :
    (listenerOnPush true true jobInit startFailMsg).1.settled.isSome = true
    ∧ (listenerOnPush true true jobInit startFailMsg).1.listenerRegistered = false :=
  ⟨by decide, (C7_listener_cleanup).1 startFailMsg true true (by decide)⟩

/-! ## C3 — timeout precedence -/

/-- C3: when the timeout registered by `send` fires for a still-pending,
still-unsettled entry (matching timestamp), the entry's promise is
resolved exactly once with the synthetic timeout response (fixed code 22)
and the entry is discarded; a real response for the same operation name
arriving afterwards finds no pending entry, resolves nothing and leaves
the pool unchanged. -/
theorem C3_timeout_precedence (s : SocketState) (a : String) (e : PoolEntry)
    (m : Msg) (hp : poolGet s.pool a = some e) (hs : e.settled = none)
    (hm : m.apiName = some a) :
    (timeoutFire s a e.timestamp).2 = [(a, timeoutMsg a)]
    ∧ poolGet (timeoutFire s a e.timestamp).1.pool a = none
    ∧ (messageRouter (timeoutFire s a e.timestamp).1 m).resolved = []
    ∧ (messageRouter (timeoutFire s a e.timestamp).1 m).state.pool
        = (timeoutFire s a e.timestamp).1.pool := by
  have hflag : (timeoutFlag s a).pool = s.pool := by
    unfold timeoutFlag
    split <;> rfl
  have hev : (timeoutFire s a e.timestamp).2 = [(a, timeoutMsg a)] := by
    unfold timeoutFire
    dsimp only
    rw [hflag, hp]
    simp [settleEntry, hs]
  have hpool : (timeoutFire s a e.timestamp).1.pool = poolDel s.pool a := by
    unfold timeoutFire
    dsimp only
    rw [hflag, hp]
    simp [settleEntry, hs, hflag]
  have hnone : poolGet (timeoutFire s a e.timestamp).1.pool a = none := by
    rw [hpool]
    exact poolGet_poolDel_self s.pool a
  have hrt := messageRouter_no_entry (timeoutFire s a e.timestamp).1 m a hm hnone
  exact ⟨hev, hnone, hrt.1, hrt.2⟩

/-- Witness for C3: an `initSdk` request pending at timestamp 100 on an
open socket times out and a late `initSdk` response is then ignored. -/
theorem C3_witness :
    poolGet (send { ws := some 1 } "initSdk" 100).1.pool "initSdk"
        = some { timestamp := 100 }
    ∧ (timeoutFire (send { ws := some 1 } "initSdk" 100).1 "initSdk" 100).2
        = [("initSdk", timeoutMsg "initSdk")]
    ∧ (messageRouter
          (timeoutFire (send { ws := some 1 } "initSdk" 100).1 "initSdk" 100).1
          okSdkResponse).resolved = [] :=
  ⟨by decide,
    (C3_timeout_precedence (send { ws := some 1 } "initSdk" 100).1 "initSdk"
      { timestamp := 100 } okSdkResponse (by decide) rfl rfl).1,
    (C3_timeout_precedence (send { ws := some 1 } "initSdk" 100).1 "initSdk"
      { timestamp := 100 } okSdkResponse (by decide) rfl rfl).2.2.1⟩

/-! ## C9 — stale timeout is a no-op -/

/-- C9: the timeout callback resolves and deletes a pending entry only when
the entry's recorded timestamp equals the timestamp captured at its own
send; a stale timeout (entry present with a different timestamp, i.e. one
installed by a newer same-named send) resolves nothing and leaves the pool
untouched. -/
theorem C9_stale_timeout_noop (s : SocketState) (a : String) (ts : Nat)
    (e : PoolEntry) (hp : poolGet s.pool a = some e) (hne : e.timestamp ≠ ts) :
    (timeoutFire s a ts).2 = [] ∧ (timeoutFire s a ts).1.pool = s.pool := by
  have hflag : (timeoutFlag s a).pool = s.pool := by
    unfold timeoutFlag
    split <;> rfl
  unfold timeoutFire
  dsimp only
  rw [hflag, hp]
  simp [hne, hflag]

/-- Witness for C9: after a second `initSdk` send at timestamp 200
overwrites the entry of the first (timestamp 100), the first send's
expired timeout fires and neither resolves nor discards the new entry. -/
theorem C9_witness :
    poolGet (send (send { ws := some 1 } "initSdk" 100).1 "initSdk" 200).1.pool
        "initSdk" = some { timestamp := 200 }
    ∧ (timeoutFire (send (send { ws := some 1 } "initSdk" 100).1 "initSdk" 200).1
        "initSdk" 100).2 = []
    ∧ (timeoutFire (send (send { ws := some 1 } "initSdk" 100).1 "initSdk" 200).1
        "initSdk" 100).1.pool
      = (send (send { ws := some 1 } "initSdk" 100).1 "initSdk" 200).1.pool :=
  ⟨by decide,
    (C9_stale_timeout_noop _ "initSdk" 100 { timestamp := 200 } (by decide)
      (by decide)).1,
    (C9_stale_timeout_noop _ "initSdk" 100 { timestamp := 200 } (by decide)
      (by decide)).2⟩

/-! ## C10 — commitJob messages are push-only -/

/-- C10: every inbound message whose `apiName` is `"commitJob"` is routed
to the push listeners (all of them, in order) and resolves no pending
entry, leaving the pool unchanged; and no inbound message whatsoever
resolves a pool entry keyed `"commitJob"` — so the promise `send` returns
for a `commitJob` request can only be settled by its timeout or by the
synthetic not-connected response, never by a daemon message. -/
theorem C10_commitJob_push_isolation (s : SocketState) (m : Msg) :
    (m.apiName = some "commitJob" →
      (messageRouter s m).resolved = []
      ∧ (messageRouter s m).pushedTo = s.printListeners
      ∧ (messageRouter s m).state.pool = s.pool)
    ∧ ∀ v : Msg, ("commitJob", v) ∉ (messageRouter s m).resolved := by
  constructor
  · intro hm
    unfold messageRouter
    dsimp only
    rw [hm]
    simp only [beq_self_eq_true, Bool.not_true, Bool.and_false, if_false,
      if_true, reduceIte]
    exact ⟨rfl, rfl, handleEventPush_pool s m⟩
  · intro v hv
    unfold messageRouter at hv
    dsimp only at hv
    split at hv
    · rename_i hcond
      simp only [Bool.and_eq_true, Bool.not_eq_true', beq_eq_false_iff_ne,
        ne_eq, bne_iff_ne] at hcond
      obtain ⟨⟨⟨htr, _⟩, _⟩, hne⟩ := hcond
      have hkey := handleApiResponse_resolved_key s (m.apiName.getD "") m
          ("commitJob", v) hv
      cases ha : m.apiName with
      | none =>
        rw [ha] at htr
        exact absurd htr (by decide)
      | some a =>
        rw [ha] at hkey hne
        simp only [Option.getD_some] at hkey
        exact hne (by rw [← hkey])
    · split at hv
      · simp at hv
      · simp at hv

/-- A socket with a pending `commitJob` request and two listeners. -/
def commitPendingSock : SocketState :=
  { ws := some 1
    pool := [("commitJob", { timestamp := 5 })]
    printListeners := [3, 9] }

/-- Witness for C10: a `commitJob` auto-report reaching a socket with a
pending `commitJob` entry and two listeners is pushed to both listeners,
resolves nothing, and leaves the pool unchanged. -/
theorem C10_witness :
    goodPush.apiName = some "commitJob"
    ∧ (messageRouter commitPendingSock goodPush).resolved = []
    ∧ (messageRouter commitPendingSock goodPush).pushedTo = [3, 9]
    ∧ ("commitJob", timeoutMsg "commitJob")
        ∉ (messageRouter commitPendingSock goodPush).resolved :=
  ⟨rfl,
    ((C10_commitJob_push_isolation commitPendingSock goodPush).1 rfl).1,
    ((C10_commitJob_push_isolation commitPendingSock goodPush).1 rfl).2.1,
    (C10_commitJob_push_isolation commitPendingSock goodPush).2
      (timeoutMsg "commitJob")⟩

/-! ## C2 — fixed ordering of the job calls -/

/-- The draw loop issues a prefix of its element list (the first failing
element is the last one attempted), and issues all of it when it reports
success. -/
theorem runDraws_spec (elems : List JobRequest) (oracle : Nat → Msg) (i : Nat) :
    ∃ n, n ≤ elems.length
      ∧ (runDraws elems oracle i).1 = elems.take n
      ∧ ((runDraws elems oracle i).2 = true → (runDraws elems oracle i).1 = elems) := by
  induction elems generalizing i with
  | nil => exact ⟨0, Nat.le_refl 0, rfl, fun _ => rfl⟩
  | cons e rest ih =>
    by_cases h : isZeroAck (oracle i)
    · obtain ⟨n, hn, htr, hok⟩ := ih (i + 1)
      refine ⟨n + 1, by simpa using hn, ?_, ?_⟩
      · simp only [runDraws, h, if_true, List.take_succ_cons]
        rw [htr]
      · intro hb
        have hb2 : (runDraws rest oracle (i + 1)).2 = true := by
          simpa [runDraws, h] using hb
        simp only [runDraws, h, if_true]
        rw [hok hb2]
    · refine ⟨1, by simp, by simp [runDraws, h], ?_⟩
      intro hb
      simp [runDraws, h] at hb

/-- C2: the trace of every `executePrintJob` invocation is a prefix of the
fixed sequence startJob → InitDrawingBoard → the three DrawLableText calls
in source order → commitJob; `endJob` is never among its calls; and when
the `startJob` response carries a nonzero (or absent) error code, the
trace is exactly the single `startJob` call and the job does not
succeed — none of init/draw/commit/endJob is attempted. -/
theorem C2_job_ordering (d lt pm : Int) (p : Participant) (oracle : Nat → Msg) :
    (∃ n, (executePrintJob d lt pm p oracle).1 = (fullJobSeq d lt pm p).take n)
    ∧ JobRequest.endJob ∉ (executePrintJob d lt pm p oracle).1
    ∧ (ackCode (oracle 0) ≠ some 0 →
        (executePrintJob d lt pm p oracle).1 = [JobRequest.startJob d lt pm 1]
        ∧ (executePrintJob d lt pm p oracle).2 ≠ Except.ok ()) := by
  unfold executePrintJob
  cases h0 : (oracle 0).resultAck with
  | none =>
    exact ⟨⟨1, rfl⟩, by simp, fun _ => ⟨rfl, by simp⟩⟩
  | some ra =>
    by_cases hq : ra.errorCode = some 0
    · have hz : ackCode (oracle 0) = some 0 := by simp [ackCode, h0, hq]
      simp only [hq, bne_self_eq_false, if_false, Bool.false_eq_true, reduceIte]
      by_cases h1 : isZeroAck (oracle 1)
      · simp only [h1, Bool.not_true, if_false, Bool.false_eq_true, reduceIte]
        obtain ⟨n, hn, htr, hok⟩ := runDraws_spec (textElements p) oracle 2
        by_cases hd : (runDraws (textElements p) oracle 2).2 = true
        · have hfull := hok hd
          simp only [hd, if_true]
          refine ⟨⟨6, ?_⟩, ?_, fun hcontra => absurd hz hcontra⟩
          · rw [hfull]
            simp [fullJobSeq, textElements]
          · rw [hfull]
            simp [textElements, initBoardReq]
        · rw [Bool.not_eq_true] at hd
          simp only [hd, Bool.false_eq_true, if_false, reduceIte]
          refine ⟨⟨n + 2, ?_⟩, ?_, fun hcontra => absurd hz hcontra⟩
          · rw [htr]
            simp only [fullJobSeq, List.take_succ_cons]
            rw [List.take_append_of_le_length hn]
          · have hsub : JobRequest.endJob ∉ textElements p := by
              simp [textElements]
            simp only [List.mem_cons, not_or]
            refine ⟨by simp, by simp [initBoardReq], fun hm => ?_⟩
            rw [htr] at hm
            exact hsub (List.take_subset n (textElements p) hm)
      · simp only [h1, Bool.not_false, if_true, reduceIte]
        exact ⟨⟨2, rfl⟩, by simp [initBoardReq], fun hcontra => absurd hz hcontra⟩
    · have hbne : (ra.errorCode != some 0) = true := by
        simpa [bne_iff_ne] using hq
      simp only [hbne, if_true, reduceIte]
      refine ⟨⟨1, ?_⟩, by simp, fun _ => ⟨?_, by simp⟩⟩
      · rfl
      · trivial

/-- Witness for C2 at a concrete oracle whose `startJob` response carries
error code 1: the trace is the lone `startJob` call. -/
theorem C2_witness :
    ackCode ((fun _ => startFailMsg) 0) ≠ some 0
    ∧ (executePrintJob 3 1 1 jane (fun _ => startFailMsg)).1
        = [JobRequest.startJob 3 1 1 1]
    ∧ (executePrintJob 3 1 1 jane (fun _ => startFailMsg)).2 ≠ Except.ok () :=
  ⟨by decide,
    ((C2_job_ordering 3 1 1 jane (fun _ => startFailMsg)).2.2 (by decide)).1,
    ((C2_job_ordering 3 1 1 jane (fun _ => startFailMsg)).2.2 (by decide)).2⟩

end PrinterClient
